import Mathlib

/-!
Verification development for the `ai-interviewer` Streamlit application
(`ai_interviewer_streamlit.py`).  The file embeds the two pieces of logic the
specification describes — the text extractor `extract_text_from_file` and the
three-phase interview state machine inside `main` — as executable Lean
definitions, and proves the specification's claims about them.

Modelling conventions:
* Python strings are Lean `String`s; `str.strip()` is modelled by `pyStrip`
  (whitespace as recognised by `Char.isWhitespace`).
* `pathlib.Path(name).suffix` is modelled by `pySuffix`, following the CPython
  rule for a bare file name (no directory separators): the suffix is the part
  of the name from its last dot onward, provided that dot is neither the first
  nor the last character; otherwise the suffix is empty.
* The external parser libraries (`pdfplumber`, `python-docx`) are modelled by
  the uploaded file carrying, for each format, either the data the parser
  would produce for its bytes or the message of the exception it would raise.
* The remote chat service is modelled by an oracle giving the outcome of the
  (at most one) `start_chat` call and the (at most one) `send_message` call a
  single script run can make.
-/

/-! ### Python string primitives -/

/-- Strip the whitespace prefix and suffix of a character list: the semantics
of Python `str.strip()` on the underlying characters. -/
def stripList (l : List Char) : List Char :=
  ((l.dropWhile Char.isWhitespace).reverse.dropWhile Char.isWhitespace).reverse

/-- Model of Python `str.strip()`. -/
def pyStrip (s : String) : String :=
  ⟨stripList s.data⟩

/-- Index of the last occurrence of a dot in a character list
(Python `str.rfind` restricted to the dot character). -/
def rfindDot : List Char → Option Nat
  | [] => none
  | c :: rest =>
    match rfindDot rest with
    | some i => some (i + 1)
    | none => if c = '.' then some 0 else none

/-- Model of `pathlib.Path(name).suffix` for a bare file name: CPython returns
`name[i:]` where `i` is the index of the last dot, provided `0 < i < len - 1`,
and the empty string otherwise. -/
def pySuffix (name : String) : String :=
  match rfindDot name.data with
  | none => ""
  | some i =>
    if 0 < i ∧ i < name.data.length - 1 then ⟨name.data.drop i⟩ else ""

/-! ### The extractor -/

/-- Outcome of `extract_text_from_file`.  The Python function signals every
failure by returning `None`, distinguishing the cases only through the message
it renders; the constructors record which of its distinct exit branches was
taken and what that branch carries. -/
inductive ExtractResult where
  | success (text : String)
  | unsupportedFormat (ext : String)
  | emptyExtraction
  | extractionError (cause : String)
  deriving DecidableEq, Repr

deriving instance DecidableEq for Except

/-- An uploaded file, abstracted by its name and by what each parser library
would do with its bytes: `pdfPages` is the list of `page.extract_text()`
results (`none` when a page yields no text object) that `pdfplumber` would
produce, or the exception it would raise; `docxParas` is the list of paragraph
texts `python-docx` would produce, or the exception it would raise. -/
structure UploadedFile where
  name : String
  pdfPages : Except String (List (Option String))
  docxParas : Except String (List String)
  deriving DecidableEq, Repr

/-- The accumulation loop of the `.pdf` branch: `text += page_text + "\n"` for
every page whose `extract_text()` result is truthy (not `None` and not the
empty string). -/
def pdfRawText (pages : List (Option String)) : String :=
  pages.foldl
    (fun acc p =>
      match p with
      | some t => if t = "" then acc else acc ++ t ++ "\n"
      | none => acc)
    ""

/-- The accumulation loop of the `.docx` branch: `text += para.text + "\n"`
for every paragraph. -/
def docxRawText (paras : List String) : String :=
  paras.foldl (fun acc t => acc ++ t ++ "\n") ""

/-- The common tail of `extract_text_from_file`: fail with the
empty-extraction warning when the stripped text is empty, otherwise return
the stripped text. -/
def finishExtract (text : String) : ExtractResult :=
  if pyStrip text = "" then .emptyExtraction else .success (pyStrip text)

/-- Embedding of `extract_text_from_file`.  The body of the Python function is
one `try` block; the only statements in it that can raise are the two parser
calls, whose behaviour the `UploadedFile` fields record, so the `except`
branch is entered exactly when the chosen parser raises. -/
def extract_text_from_file (f : UploadedFile) : ExtractResult :=
  let ext := pySuffix f.name
  if ext = ".pdf" then
    match f.pdfPages with
    | .error e => .extractionError e
    | .ok pages => finishExtract (pdfRawText pages)
  else if ext = ".docx" then
    match f.docxParas with
    | .error e => .extractionError e
    | .ok paras => finishExtract (docxRawText paras)
  else
    .unsupportedFormat ext

/-! ### Spec-side extractor vocabulary (for the refinement claims) -/

/-- Modelled from the spec: the page texts kept by the `.pdf` branch — pages
yielding no text are skipped. -/
def keptPageTexts (pages : List (Option String)) : List String :=
  pages.filterMap
    (fun p =>
      match p with
      | some t => if t = "" then none else some t
      | none => none)

/-- Modelled from the spec: joining a list of fragments with newline. -/
def joinNL : List String → String
  | [] => ""
  | a :: rest => rest.foldl (fun acc t => acc ++ "\n" ++ t) a

/-! ### The interview state machine

`main` re-executes from the top on every Streamlit rerun.  One `step` below is
one such script run: it receives the persisted session state, the (single)
fresh widget interaction delivered by this rerun, and an oracle for the
remote-API calls the run may make, and returns the new session state together
with the adapter calls issued, the failure causes surfaced via
`st.error`/`st.warning`, and the feedback replies rendered outside the
transcript. -/

/-- The `interview_state` session value: `"START"` (the spec's
`AWAITING_RESUME`), `"INTERVIEW"` (`IN_PROGRESS`), `"FEEDBACK"`
(`COMPLETE`). -/
inductive Phase where
  | START
  | INTERVIEW
  | FEEDBACK
  deriving DecidableEq, Repr

/-- The `role` tag of a transcript entry: the code stores `"user"` or
`"ai"`. -/
inductive Role where
  | user
  | ai
  deriving DecidableEq, Repr

/-- One entry of `st.session_state.messages`. -/
structure Turn where
  role : Role
  content : String
  deriving DecidableEq, Repr

/-- The persisted Streamlit session state: `chat_session` (a handle, `none`
for Python `None`), `messages`, `interview_state`. -/
structure Session where
  chat_session : Option Nat
  messages : List Turn
  interview_state : Phase
  deriving DecidableEq, Repr

/-- The state after the initialisation block (lines 222-227): every field at
its default. -/
def initSession : Session :=
  { chat_session := none, messages := [], interview_state := .START }

/-- The single fresh widget interaction a rerun can deliver: none (a bare
re-render), a file in the uploader, a chat-input submission, the
end-interview button, or the start-new-interview button. -/
inductive Interaction where
  | noInput
  | upload (f : UploadedFile)
  | chatInput (text : String)
  | endButton
  | resetButton
  deriving DecidableEq, Repr

/-- Oracle for the remote chat service during one run: the outcome of a
`model.start_chat()` call (a fresh handle, or the raised exception) and of a
`send_message` call (the reply text, or the raised exception). -/
structure Oracle where
  startResult : Except String Nat
  sendResult : Except String String
  deriving DecidableEq, Repr

/-- One adapter call as observed on the wire: which primitive was invoked and
whether it succeeded. -/
inductive AdapterCall where
  | start (ok : Bool)
  | send (ok : Bool)
  deriving DecidableEq, Repr

/-- Everything one script run produces: the new session state, the adapter
calls issued in order, the failure causes surfaced inline, and the feedback
replies rendered outside the transcript. -/
structure StepOut where
  state : Session
  calls : List AdapterCall
  errors : List String
  feedbackShown : List String
  deriving DecidableEq, Repr

/-- Embedding of one run of `main` (lines 229-321).  Branching on
`interview_state` mirrors the three pages; inside each page the code path
followed is determined by the interaction and the oracle.  In the `START`
page, note that `chat_session` is assigned as soon as `start_chat()` returns,
before the seed `send_message` — so a failing seed send leaves the handle set
while the phase stays `START`.  In the `FEEDBACK` page the feedback
`send_message` is executed by every run, including the run triggered by
clicking the reset button (whose `st.session_state.clear()` runs afterwards,
the following rerun re-initialising the defaults). -/
def step (s : Session) (i : Interaction) (o : Oracle) : StepOut :=
  match s.interview_state with
  | .START =>
    match i with
    | .upload f =>
      match extract_text_from_file f with
      | .success _resumeText =>
        match o.startResult with
        | .error e => { state := s, calls := [.start false], errors := [e], feedbackShown := [] }
        | .ok h =>
          let s1 := { s with chat_session := some h }
          match o.sendResult with
          | .error e =>
            { state := s1, calls := [.start true, .send false], errors := [e],
              feedbackShown := [] }
          | .ok reply =>
            { state :=
                { s1 with
                  messages := s1.messages ++ [{ role := .ai, content := reply }],
                  interview_state := .INTERVIEW },
              calls := [.start true, .send true], errors := [], feedbackShown := [] }
      | .unsupportedFormat ext =>
        { state := s, calls := [],
          errors := ["Unsupported file type: " ++ ext ++ ". Please upload .pdf or .docx."],
          feedbackShown := [] }
      | .emptyExtraction =>
        { state := s, calls := [],
          errors := ["Extracted text is empty. The file might be image-based or corrupt."],
          feedbackShown := [] }
      | .extractionError e =>
        { state := s, calls := [], errors := ["Error reading file: " ++ e],
          feedbackShown := [] }
    | _ => { state := s, calls := [], errors := [], feedbackShown := [] }
  | .INTERVIEW =>
    match i with
    | .chatInput text =>
      let s1 := { s with messages := s.messages ++ [{ role := .user, content := text }] }
      match o.sendResult with
      | .error e => { state := s1, calls := [.send false], errors := [e], feedbackShown := [] }
      | .ok reply =>
        { state := { s1 with messages := s1.messages ++ [{ role := .ai, content := reply }] },
          calls := [.send true], errors := [], feedbackShown := [] }
    | .endButton =>
      { state := { s with interview_state := .FEEDBACK }, calls := [], errors := [],
        feedbackShown := [] }
    | _ => { state := s, calls := [], errors := [], feedbackShown := [] }
  | .FEEDBACK =>
    let fb :=
      match o.sendResult with
      | .error e => (([AdapterCall.send false], [e]), ([] : List String))
      | .ok reply => (([AdapterCall.send true], ([] : List String)), [reply])
    match i with
    | .resetButton =>
      { state := initSession, calls := fb.1.1, errors := fb.1.2, feedbackShown := fb.2 }
    | _ =>
      { state := s, calls := fb.1.1, errors := fb.1.2, feedbackShown := fb.2 }

/-- Final session state after a sequence of runs. -/
def runTrace (s : Session) : List (Interaction × Oracle) → Session
  | [] => s
  | e :: rest => runTrace (step s e.1 e.2).state rest

/-- Concatenated adapter-call log of a sequence of runs. -/
def runLog (s : Session) : List (Interaction × Oracle) → List AdapterCall
  | [] => []
  | e :: rest => (step s e.1 e.2).calls ++ runLog (step s e.1 e.2).state rest

/-- Number of `send` calls in a log. -/
def sendCount (l : List AdapterCall) : Nat :=
  l.countP (fun c => match c with | .send _ => true | _ => false)

/-- Scan of a log checking that every `send` is preceded by a successful
`start`; the flag records whether a successful `start` has been seen. -/
def sendsAfterStart : List AdapterCall → Bool → Bool
  | [], _ => true
  | .start true :: rest, _ => sendsAfterStart rest true
  | .start false :: rest, started => sendsAfterStart rest started
  | .send _ :: rest, started => started && sendsAfterStart rest started

/-- Whether a successful `start` has been seen after processing a log,
starting from flag `st`. -/
def startedAfter : List AdapterCall → Bool → Bool
  | [], st => st
  | .start true :: rest, _ => startedAfter rest true
  | .start false :: rest, st => startedAfter rest st
  | .send _ :: rest, st => startedAfter rest st

/-! ### String lemmas -/

theorem string_data_append (a b : String) : (a ++ b).data = a.data ++ b.data := rfl

theorem stripList_append_newline (l : List Char) :
    stripList (l ++ ['\n']) = stripList l := by
  unfold stripList
  rw [List.dropWhile_append]
  by_cases h : (l.dropWhile Char.isWhitespace).isEmpty = true
  · rw [if_pos h]
    rw [List.isEmpty_iff] at h
    rw [h]
    simp [List.dropWhile_cons]
  · rw [if_neg h]
    simp [List.reverse_append, List.dropWhile_cons]

theorem pyStrip_append_newline (s : String) : pyStrip (s ++ "\n") = pyStrip s := by
  apply String.ext
  show stripList (s ++ "\n").data = stripList s.data
  rw [string_data_append]
  exact stripList_append_newline s.data

/-- Accumulator generalisation for the newline-appending fold shared by the
two raw-text loops. -/
theorem foldl_nl_acc (l : List String) (acc : String) :
    l.foldl (fun a t => a ++ t ++ "\n") acc = acc ++ docxRawText l := by
  induction l generalizing acc with
  | nil => simp [docxRawText]
  | cons t ts ih =>
    simp only [docxRawText, List.foldl_cons]
    rw [ih, ih (("" : String) ++ t ++ "\n")]
    simp [String.append_assoc]

/-- The `.pdf` loop over all pages equals the plain newline-appending loop
over the kept page texts. -/
theorem pdfRawText_eq_kept (pages : List (Option String)) :
    pdfRawText pages = docxRawText (keptPageTexts pages) := by
  suffices h : ∀ acc : String,
      pages.foldl
        (fun acc p =>
          match p with
          | some t => if t = "" then acc else acc ++ t ++ "\n"
          | none => acc) acc
      = (keptPageTexts pages).foldl (fun a t => a ++ t ++ "\n") acc by
    exact h ""
  induction pages with
  | nil => intro acc; simp [keptPageTexts]
  | cons p ps ih =>
    intro acc
    cases p with
    | none => simpa [keptPageTexts, List.filterMap_cons] using ih acc
    | some t =>
      by_cases ht : t = ""
      · simpa [keptPageTexts, List.filterMap_cons, ht] using ih acc
      · simpa [keptPageTexts, List.filterMap_cons, ht] using ih (acc ++ t ++ "\n")

/-- The newline-appending fold started at `a ++ "\n"` is the
newline-separating fold started at `a`, with one trailing newline. -/
theorem foldl_nl_vs_join (rest : List String) (a : String) :
    rest.foldl (fun acc t => acc ++ t ++ "\n") (a ++ "\n")
      = rest.foldl (fun acc t => acc ++ "\n" ++ t) a ++ "\n" := by
  induction rest generalizing a with
  | nil => rfl
  | cons t ts ih =>
    simp only [List.foldl_cons]
    have := ih (a ++ "\n" ++ t)
    rw [← this]

/-- After stripping, the raw paragraph text equals the paragraphs joined with
newline. -/
theorem pyStrip_docxRawText (l : List String) :
    pyStrip (docxRawText l) = pyStrip (joinNL l) := by
  cases l with
  | nil => rfl
  | cons a rest =>
    show pyStrip (List.foldl _ ("" ++ a ++ "\n") rest) = _
    have h0 : ("" : String) ++ a ++ "\n" = a ++ "\n" := by simp
    rw [h0, foldl_nl_vs_join]
    exact pyStrip_append_newline _

/-- After stripping, the raw `.pdf` page text equals the kept page texts
joined with newline. -/
theorem pyStrip_pdfRawText (pages : List (Option String)) :
    pyStrip (pdfRawText pages) = pyStrip (joinNL (keptPageTexts pages)) := by
  rw [pdfRawText_eq_kept]
  exact pyStrip_docxRawText _

/-! ### Branch lemmas for the extractor -/

theorem extract_pdf_branch (f : UploadedFile) (h : pySuffix f.name = ".pdf") :
    extract_text_from_file f =
      match f.pdfPages with
      | .error e => .extractionError e
      | .ok pages => finishExtract (pdfRawText pages) := by
  unfold extract_text_from_file
  simp only [h]
  rfl

theorem extract_docx_branch (f : UploadedFile) (h : pySuffix f.name = ".docx") :
    extract_text_from_file f =
      match f.docxParas with
      | .error e => .extractionError e
      | .ok paras => finishExtract (docxRawText paras) := by
  unfold extract_text_from_file
  simp only [h]
  simp

theorem extract_other_branch (f : UploadedFile) (h1 : pySuffix f.name ≠ ".pdf")
    (h2 : pySuffix f.name ≠ ".docx") :
    extract_text_from_file f = .unsupportedFormat (pySuffix f.name) := by
  unfold extract_text_from_file
  simp only [if_neg h1, if_neg h2]

theorem finishExtract_of_ne (text : String) (h : pyStrip text ≠ "") :
    finishExtract text = .success (pyStrip text) := by
  simp [finishExtract, h]

theorem finishExtract_of_eq (text : String) (h : pyStrip text = "") :
    finishExtract text = .emptyExtraction := by
  simp [finishExtract, h]

theorem finishExtract_success_inv (text t : String)
    (h : finishExtract text = .success t) : t = pyStrip text ∧ t ≠ "" := by
  unfold finishExtract at h
  by_cases hc : pyStrip text = ""
  · rw [if_pos hc] at h
    exact absurd h (by simp)
  · rw [if_neg hc] at h
    cases h
    exact ⟨rfl, hc⟩

/-! ### Fixtures for witnesses and counterexamples -/

/-- A well-formed `.pdf` upload whose single page carries text. -/
def pdfFixture : UploadedFile :=
  { name := "resume.pdf",
    pdfPages := .ok [some "5 years backend experience"],
    docxParas := .ok [] }

/-- A `.txt` upload (outside the supported formats). -/
def txtFixture : UploadedFile :=
  { name := "resume.txt", pdfPages := .ok [], docxParas := .ok [] }

/-- A `.pdf` upload on which the parser raises. -/
def corruptPdfFixture : UploadedFile :=
  { name := "resume.pdf", pdfPages := .error "parse fault", docxParas := .ok [] }

/-- An oracle whose remote calls all succeed. -/
def okOracle : Oracle := { startResult := .ok 0, sendResult := .ok "First question" }

/-- An oracle whose `start_chat` succeeds but whose `send_message` raises. -/
def failSendOracle : Oracle :=
  { startResult := .ok 0, sendResult := .error "network unreachable" }

/-- A session in the middle of the interview. -/
def interviewFixture : Session :=
  { chat_session := some 0,
    messages := [{ role := .ai, content := "First question" }],
    interview_state := .INTERVIEW }

/-- A session on the feedback page. -/
def feedbackFixture : Session :=
  { chat_session := some 0,
    messages :=
      [{ role := .ai, content := "First question" },
       { role := .user, content := "An answer" }],
    interview_state := .FEEDBACK }

-- Sanity checks (concrete evaluations of the embedding).
example : pySuffix "resume.txt" = ".txt" := by decide
example : pySuffix "resume.pdf" = ".pdf" := by decide
example : pySuffix ".bashrc" = "" := by decide
example : pySuffix "file." = "" := by decide
example : pySuffix "archive.tar.gz" = ".gz" := by decide
example :
    extract_text_from_file ⟨"r.pdf", .ok [some "a", none, some "", some "b"], .ok []⟩ =
      .success "a\nb" := by decide
example :
    extract_text_from_file ⟨"r.docx", .ok [], .ok ["x", "", "y"]⟩ =
      .success "x\n\ny" := by decide
example :
    extract_text_from_file ⟨"r.pdf", .ok [none, some "  "], .ok []⟩ =
      .emptyExtraction := by decide

/-! ### Claims about the extractor -/

/-- C4: for a supported extension, a whitespace-only extraction fails with
the empty-extraction branch, a parser fault fails with the extraction-error
branch carrying the underlying cause, and the two failures are distinct typed
outcomes (also distinct from success); `extract_text_from_file` is a total
function into `ExtractResult`, so no fault escapes the boundary. -/
theorem c4_extractor_failures (f : UploadedFile) :
    (∀ e, pySuffix f.name = ".pdf" → f.pdfPages = .error e →
      extract_text_from_file f = .extractionError e)
    ∧ (∀ e, pySuffix f.name = ".docx" → f.docxParas = .error e →
      extract_text_from_file f = .extractionError e)
    ∧ (∀ pages, pySuffix f.name = ".pdf" → f.pdfPages = .ok pages →
      pyStrip (pdfRawText pages) = "" →
      extract_text_from_file f = .emptyExtraction)
    ∧ (∀ paras, pySuffix f.name = ".docx" → f.docxParas = .ok paras →
      pyStrip (docxRawText paras) = "" →
      extract_text_from_file f = .emptyExtraction)
    ∧ (∀ e t, ExtractResult.emptyExtraction ≠ ExtractResult.extractionError e
      ∧ ExtractResult.emptyExtraction ≠ ExtractResult.success t
      ∧ ExtractResult.extractionError e ≠ ExtractResult.success t) := by
  refine ⟨?_, ?_, ?_, ?_, ?_⟩
  · intro e hname hpages
    rw [extract_pdf_branch f hname, hpages]
  · intro e hname hparas
    rw [extract_docx_branch f hname, hparas]
  · intro pages hname hpages hws
    rw [extract_pdf_branch f hname, hpages]
    exact finishExtract_of_eq _ hws
  · intro paras hname hparas hws
    rw [extract_docx_branch f hname, hparas]
    exact finishExtract_of_eq _ hws
  · intro e t
    refine ⟨by simp, by simp, by simp⟩

/-- Witness for C4 at concrete inputs: a corrupt `.pdf` yields the
extraction-error outcome with its cause, and an image-only `.pdf` (one page
with no text object) yields the empty-extraction outcome. -/
theorem c4_extractor_failures_witness :
    extract_text_from_file corruptPdfFixture = .extractionError "parse fault"
    ∧ extract_text_from_file { name := "scan.pdf", pdfPages := .ok [none], docxParas := .ok [] }
        = .emptyExtraction :=
  ⟨(c4_extractor_failures corruptPdfFixture).1 "parse fault" (by decide) rfl,
   (c4_extractor_failures
      { name := "scan.pdf", pdfPages := .ok [none], docxParas := .ok [] }).2.2.1
     [none] (by decide) rfl (by decide)⟩

/-- C5 counterexample: the code computes the extension with
`pathlib.Path(name).suffix`, which keeps the leading dot, so a `.txt` upload
is rejected carrying `".txt"`, not `"txt"` as the claim's scenario states. -/
theorem c5_counterexample :
    extract_text_from_file txtFixture = .unsupportedFormat ".txt"
    ∧ extract_text_from_file txtFixture ≠ .unsupportedFormat "txt" := by
  decide

/-- C5 (amended): for any declared extension outside `.pdf`/`.docx` the
extractor fails with the unsupported-format branch carrying the exact suffix
(leading dot included), and an upload of such a file in the initial state
leaves the session unchanged: phase still `START`, transcript still empty. -/
theorem c5_unsupported_format (f : UploadedFile) (o : Oracle)
    (h1 : pySuffix f.name ≠ ".pdf") (h2 : pySuffix f.name ≠ ".docx") :
    extract_text_from_file f = .unsupportedFormat (pySuffix f.name)
    ∧ (step initSession (.upload f) o).state = initSession
    ∧ (step initSession (.upload f) o).state.interview_state = .START
    ∧ (step initSession (.upload f) o).state.messages = [] := by
  have hx := extract_other_branch f h1 h2
  refine ⟨hx, ?_, ?_, ?_⟩ <;> simp [step, initSession, hx]

/-- Witness for C5: the `.txt` fixture. -/
theorem c5_unsupported_format_witness :
    extract_text_from_file txtFixture = .unsupportedFormat (pySuffix txtFixture.name)
    ∧ (step initSession (.upload txtFixture) okOracle).state = initSession
    ∧ (step initSession (.upload txtFixture) okOracle).state.interview_state = .START
    ∧ (step initSession (.upload txtFixture) okOracle).state.messages = [] :=
  c5_unsupported_format txtFixture okOracle (by decide) (by decide)

/-- C7: on a well-formed supported document the extractor returns the
per-page texts (pages yielding no text skipped) respectively the
per-paragraph texts, joined with newline and stripped of surrounding
whitespace; and every successful result is non-empty. -/
theorem c7_extractor_success (f : UploadedFile) :
    (∀ pages, pySuffix f.name = ".pdf" → f.pdfPages = .ok pages →
      pyStrip (joinNL (keptPageTexts pages)) ≠ "" →
      extract_text_from_file f = .success (pyStrip (joinNL (keptPageTexts pages))))
    ∧ (∀ paras, pySuffix f.name = ".docx" → f.docxParas = .ok paras →
      pyStrip (joinNL paras) ≠ "" →
      extract_text_from_file f = .success (pyStrip (joinNL paras)))
    ∧ (∀ t, extract_text_from_file f = .success t → t ≠ "") := by
  refine ⟨?_, ?_, ?_⟩
  · intro pages hname hpages hne
    rw [extract_pdf_branch f hname, hpages]
    show finishExtract (pdfRawText pages) = _
    rw [finishExtract_of_ne _ (by rw [pyStrip_pdfRawText]; exact hne)]
    rw [pyStrip_pdfRawText]
  · intro paras hname hparas hne
    rw [extract_docx_branch f hname, hparas]
    show finishExtract (docxRawText paras) = _
    rw [finishExtract_of_ne _ (by rw [pyStrip_docxRawText]; exact hne)]
    rw [pyStrip_docxRawText]
  · intro t ht
    by_cases h1 : pySuffix f.name = ".pdf"
    · rw [extract_pdf_branch f h1] at ht
      cases hp : f.pdfPages with
      | error e => rw [hp] at ht; exact absurd ht (by simp)
      | ok pages =>
        rw [hp] at ht
        exact (finishExtract_success_inv _ _ ht).2
    · by_cases h2 : pySuffix f.name = ".docx"
      · rw [extract_docx_branch f h2] at ht
        cases hp : f.docxParas with
        | error e => rw [hp] at ht; exact absurd ht (by simp)
        | ok paras =>
          rw [hp] at ht
          exact (finishExtract_success_inv _ _ ht).2
      · rw [extract_other_branch f h1 h2] at ht
        exact absurd ht (by simp)

/-- Witness for C7: the well-formed `.pdf` fixture from the spec's scenario. -/
theorem c7_extractor_success_witness :
    extract_text_from_file pdfFixture =
      .success (pyStrip (joinNL (keptPageTexts [some "5 years backend experience"]))) :=
  (c7_extractor_success pdfFixture).1 [some "5 years backend experience"]
    (by decide) rfl (by decide)

/-! ### Claims about the state machine -/

/-- C3: submitting user text while the phase is `INTERVIEW` appends the user
turn first; when the send succeeds the assistant turn is appended second and
the transcript grows by exactly two, and when the send fails only the user
turn is appended and the transcript grows by exactly one. -/
theorem c3_in_progress_turn (s : Session) (text : String) (o : Oracle)
    (hs : s.interview_state = .INTERVIEW) :
    (∀ r, o.sendResult = .ok r →
      (step s (.chatInput text) o).state.messages
          = s.messages ++ [{ role := .user, content := text }, { role := .ai, content := r }]
      ∧ (step s (.chatInput text) o).state.messages.length = s.messages.length + 2)
    ∧ (∀ e, o.sendResult = .error e →
      (step s (.chatInput text) o).state.messages
          = s.messages ++ [{ role := .user, content := text }]
      ∧ (step s (.chatInput text) o).state.messages.length = s.messages.length + 1) := by
  constructor
  · intro r hr
    simp [step, hs, hr, List.append_assoc]
  · intro e he
    simp [step, hs, he]

/-- Witness for C3 at the spec's scenario input. -/
theorem c3_in_progress_turn_witness :
    (step interviewFixture (.chatInput "I used Kafka for event streaming") okOracle).state.messages
        = interviewFixture.messages ++
            [{ role := .user, content := "I used Kafka for event streaming" },
             { role := .ai, content := "First question" }]
    ∧ (step interviewFixture (.chatInput "I used Kafka for event streaming")
          okOracle).state.messages.length = interviewFixture.messages.length + 2 :=
  (c3_in_progress_turn interviewFixture "I used Kafka for event streaming" okOracle rfl).1
    "First question" rfl

/-- C9: on the feedback page the start-new-interview action returns the
session to the initial state — transcript cleared, phase back to `START`,
chat handle discarded — whatever the transcript, handle and oracle outcome
were (`st.session_state.clear()` inspects nothing). -/
theorem c9_reset_clears_session (s : Session) (o : Oracle)
    (hs : s.interview_state = .FEEDBACK) :
    (step s .resetButton o).state = initSession
    ∧ (step s .resetButton o).state.messages = []
    ∧ (step s .resetButton o).state.interview_state = .START
    ∧ (step s .resetButton o).state.chat_session = none := by
  refine ⟨?_, ?_, ?_, ?_⟩ <;> simp [step, hs, initSession]

/-- Witness for C9: resetting the feedback fixture, even when the feedback
request itself failed. -/
theorem c9_reset_clears_session_witness :
    (step feedbackFixture .resetButton failSendOracle).state = initSession
    ∧ (step feedbackFixture .resetButton failSendOracle).state.messages = []
    ∧ (step feedbackFixture .resetButton failSendOracle).state.interview_state = .START
    ∧ (step feedbackFixture .resetButton failSendOracle).state.chat_session = none :=
  c9_reset_clears_session feedbackFixture failSendOracle rfl

/-- C8: a remote failure while the phase is `START` (failing `start_chat`, or
failing seed send) or `INTERVIEW` (failing send) surfaces its cause and does
not advance the phase, so the same action can be retried; a failing feedback
request surfaces its cause and, on any run that does not click reset, leaves
the session unchanged in `FEEDBACK`, so the reset action stays available. -/
theorem c8_failures_surfaced_no_advance (s : Session) (f : UploadedFile)
    (text e : String) (h : Nat) :
    (s.interview_state = .START → ∀ u, extract_text_from_file f = .success u →
      ∀ o : Oracle, o.startResult = .error e →
        (step s (.upload f) o).state = s ∧ (step s (.upload f) o).errors = [e])
    ∧ (s.interview_state = .START → ∀ u, extract_text_from_file f = .success u →
      ∀ o : Oracle, o.startResult = .ok h → o.sendResult = .error e →
        (step s (.upload f) o).state.interview_state = .START
        ∧ (step s (.upload f) o).state.messages = s.messages
        ∧ (step s (.upload f) o).errors = [e])
    ∧ (s.interview_state = .INTERVIEW → ∀ o : Oracle, o.sendResult = .error e →
        (step s (.chatInput text) o).state.interview_state = .INTERVIEW
        ∧ (step s (.chatInput text) o).errors = [e])
    ∧ (s.interview_state = .FEEDBACK → ∀ o : Oracle, o.sendResult = .error e →
        ∀ i, i ≠ Interaction.resetButton →
        (step s i o).state = s ∧ (step s i o).errors = [e]) := by
  refine ⟨?_, ?_, ?_, ?_⟩
  · intro hs u hu o ho
    constructor <;> simp [step, hs, hu, ho]
  · intro hs u hu o ho hsend
    refine ⟨?_, ?_, ?_⟩ <;> simp [step, hs, hu, ho, hsend]
  · intro hs o hsend
    constructor <;> simp [step, hs, hsend]
  · intro hs o hsend i hi
    cases i with
    | resetButton => exact absurd rfl hi
    | noInput => constructor <;> simp [step, hs, hsend]
    | upload g => constructor <;> simp [step, hs, hsend]
    | chatInput t => constructor <;> simp [step, hs, hsend]
    | endButton => constructor <;> simp [step, hs, hsend]

/-- Witness for C8 at concrete inputs: a failing seed send in `START` and a
failing feedback request on a bare re-render of the feedback page. -/
theorem c8_failures_surfaced_no_advance_witness :
    ((step initSession (.upload pdfFixture) failSendOracle).state.interview_state = .START
      ∧ (step initSession (.upload pdfFixture) failSendOracle).state.messages
          = initSession.messages
      ∧ (step initSession (.upload pdfFixture) failSendOracle).errors
          = ["network unreachable"])
    ∧ ((step feedbackFixture .noInput failSendOracle).state = feedbackFixture
      ∧ (step feedbackFixture .noInput failSendOracle).errors = ["network unreachable"]) :=
  ⟨(c8_failures_surfaced_no_advance initSession pdfFixture "" "network unreachable" 0).2.1
      rfl "5 years backend experience" (by decide) failSendOracle rfl rfl,
   (c8_failures_surfaced_no_advance feedbackFixture pdfFixture "" "network unreachable" 0).2.2.2
      rfl failSendOracle rfl .noInput (by decide)⟩

/-- The runs leading to the feedback page: a successful upload, one
interview turn, then the end-interview click. -/
def preEndTrace : List (Interaction × Oracle) :=
  [(.upload pdfFixture, { startResult := .ok 0, sendResult := .ok "First question" }),
   (.chatInput "An answer", { startResult := .ok 0, sendResult := .ok "Second question" }),
   (.endButton, { startResult := .ok 0, sendResult := .ok "unused" })]

/-- The runs after the end-interview click: the automatic rerun that renders
the feedback page, then the run triggered by clicking reset — which renders
the feedback page once more before `st.session_state.clear()` executes. -/
def postEndTrace : List (Interaction × Oracle) :=
  [(.noInput, { startResult := .ok 0, sendResult := .ok "Feedback v1" }),
   (.resetButton, { startResult := .ok 0, sendResult := .ok "Feedback v2" })]

/-- C2 counterexample: after the end-of-interview click the session is on the
feedback page, but merely rendering that page twice (the automatic rerun plus
the reset click's run) issues two `send` calls, not the exactly one the claim
states — the feedback request is re-issued on every re-render. -/
theorem c2_counterexample :
    (runTrace initSession preEndTrace).interview_state = .FEEDBACK
    ∧ sendCount (runLog (runTrace initSession preEndTrace) postEndTrace) = 2
    ∧ sendCount (runLog (runTrace initSession preEndTrace) postEndTrace) ≠ 1 := by
  decide

/-- C2 (amended): the end-of-interview click moves the phase to `FEEDBACK`
without issuing any adapter call; thereafter every render of the feedback
page issues exactly one `send` (so re-renders re-issue the feedback request),
and the reply of a successful request is rendered once in that run and never
appended to the transcript (the transcript is either left unchanged or, on
the reset run, cleared). -/
theorem c2_feedback_send_per_render (s : Session) (o : Oracle) :
    (s.interview_state = .INTERVIEW →
      step s .endButton o =
        { state := { s with interview_state := .FEEDBACK }, calls := [], errors := [],
          feedbackShown := [] })
    ∧ (s.interview_state = .FEEDBACK → ∀ i,
        sendCount (step s i o).calls = 1
        ∧ ((step s i o).state.messages = s.messages ∨ (step s i o).state.messages = [])
        ∧ (∀ r, o.sendResult = .ok r → (step s i o).feedbackShown = [r])) := by
  constructor
  · intro hs
    simp [step, hs]
  · intro hs i
    refine ⟨?_, ?_, ?_⟩
    · cases i <;> cases ho : o.sendResult <;> simp [step, hs, ho, sendCount]
    · cases i <;> cases ho : o.sendResult <;>
        simp [step, hs, ho, initSession]
    · intro r hr
      cases i <;> simp [step, hs, hr]

/-- Witness for C2 at concrete inputs: the end click on the interview
fixture, and a re-render of the feedback fixture. -/
theorem c2_feedback_send_per_render_witness :
    (step interviewFixture .endButton okOracle =
      { state := { interviewFixture with interview_state := .FEEDBACK }, calls := [],
        errors := [], feedbackShown := [] })
    ∧ (sendCount (step feedbackFixture .noInput okOracle).calls = 1
      ∧ ((step feedbackFixture .noInput okOracle).state.messages = feedbackFixture.messages
          ∨ (step feedbackFixture .noInput okOracle).state.messages = [])
      ∧ (∀ r, okOracle.sendResult = .ok r →
          (step feedbackFixture .noInput okOracle).feedbackShown = [r])) :=
  ⟨(c2_feedback_send_per_render interviewFixture okOracle).1 rfl,
   (c2_feedback_send_per_render feedbackFixture okOracle).2 rfl .noInput⟩

/-- The execution refuting speaker alternation: a successful upload, a first
answer whose send fails, then a second answer whose send succeeds. -/
def doubleUserTrace : List (Interaction × Oracle) :=
  [(.upload pdfFixture, { startResult := .ok 0, sendResult := .ok "First question" }),
   (.chatInput "answer one", { startResult := .ok 0, sendResult := .error "rate limited" }),
   (.chatInput "answer two", { startResult := .ok 0, sendResult := .ok "Second question" })]

/-- C10: speaker alternation is not a transcript invariant — after a failed
send in `INTERVIEW` followed by another submission, the transcript holds two
consecutive `user` turns with no assistant turn between them. -/
theorem c10_consecutive_user_turns :
    (runTrace initSession doubleUserTrace).messages
      = [{ role := .ai, content := "First question" },
         { role := .user, content := "answer one" },
         { role := .user, content := "answer two" },
         { role := .ai, content := "Second question" }]
    ∧ ((runTrace initSession doubleUserTrace).messages.map Turn.role).take 3
      = [.ai, .user, .user] := by
  decide

/-! ### The reachable-state invariant behind C1 -/

/-- The part of the spec's session invariant that does hold at every
reachable state: the transcript is empty exactly in phase `START`, and in
`INTERVIEW` or `FEEDBACK` the chat handle exists. -/
def sessionInv (s : Session) : Prop :=
  (s.messages = [] ↔ s.interview_state = .START)
  ∧ ((s.interview_state = .INTERVIEW ∨ s.interview_state = .FEEDBACK) →
      s.chat_session ≠ none)

theorem sessionInv_init : sessionInv initSession := by
  constructor
  · simp [initSession]
  · intro h
    rcases h with h | h <;> simp [initSession] at h

theorem step_preserves_sessionInv (s : Session) (i : Interaction) (o : Oracle)
    (hinv : sessionInv s) : sessionInv (step s i o).state := by
  obtain ⟨h1, h2⟩ := hinv
  cases hst : s.interview_state with
  | START =>
    cases i with
    | upload f =>
      cases hx : extract_text_from_file f with
      | success u =>
        cases ho : o.startResult with
        | error e =>
          have hs : (step s (.upload f) o).state = s := by simp [step, hst, hx, ho]
          rw [hs]; exact ⟨h1, h2⟩
        | ok hdl =>
          cases hsend : o.sendResult with
          | error e =>
            have hs : (step s (.upload f) o).state = { s with chat_session := some hdl } := by
              simp [step, hst, hx, ho, hsend]
            rw [hs]
            constructor
            · simpa [hst] using h1
            · intro hc
              simp [hst] at hc
          | ok r =>
            have hs : (step s (.upload f) o).state =
                { chat_session := some hdl,
                  messages := s.messages ++ [{ role := .ai, content := r }],
                  interview_state := .INTERVIEW } := by
              simp [step, hst, hx, ho, hsend]
            rw [hs]
            constructor
            · simp
            · intro _; simp
      | unsupportedFormat ext =>
        have hs : (step s (.upload f) o).state = s := by simp [step, hst, hx]
        rw [hs]; exact ⟨h1, h2⟩
      | emptyExtraction =>
        have hs : (step s (.upload f) o).state = s := by simp [step, hst, hx]
        rw [hs]; exact ⟨h1, h2⟩
      | extractionError e =>
        have hs : (step s (.upload f) o).state = s := by simp [step, hst, hx]
        rw [hs]; exact ⟨h1, h2⟩
    | noInput =>
      have hs : (step s .noInput o).state = s := by simp [step, hst]
      rw [hs]; exact ⟨h1, h2⟩
    | chatInput t =>
      have hs : (step s (.chatInput t) o).state = s := by simp [step, hst]
      rw [hs]; exact ⟨h1, h2⟩
    | endButton =>
      have hs : (step s .endButton o).state = s := by simp [step, hst]
      rw [hs]; exact ⟨h1, h2⟩
    | resetButton =>
      have hs : (step s .resetButton o).state = s := by simp [step, hst]
      rw [hs]; exact ⟨h1, h2⟩
  | INTERVIEW =>
    have hmsg : s.messages ≠ [] := by
      intro hc
      rw [h1] at hc
      rw [hst] at hc
      cases hc
    have hhandle : s.chat_session ≠ none := h2 (Or.inl hst)
    cases i with
    | chatInput t =>
      cases hsend : o.sendResult with
      | error e =>
        have hs : (step s (.chatInput t) o).state =
            { s with messages := s.messages ++ [{ role := .user, content := t }] } := by
          simp [step, hst, hsend]
        rw [hs]
        constructor
        · simp [hst]
        · intro _; exact hhandle
      | ok r =>
        have hs : (step s (.chatInput t) o).state =
            { s with messages :=
                (s.messages ++ [{ role := .user, content := t }])
                  ++ [{ role := .ai, content := r }] } := by
          simp [step, hst, hsend]
        rw [hs]
        constructor
        · simp [hst]
        · intro _; exact hhandle
    | endButton =>
      have hs : (step s .endButton o).state = { s with interview_state := .FEEDBACK } := by
        simp [step, hst]
      rw [hs]
      constructor
      · simp [hmsg]
      · intro _; exact hhandle
    | noInput =>
      have hs : (step s .noInput o).state = s := by simp [step, hst]
      rw [hs]; exact ⟨h1, h2⟩
    | upload f =>
      have hs : (step s (.upload f) o).state = s := by simp [step, hst]
      rw [hs]; exact ⟨h1, h2⟩
    | resetButton =>
      have hs : (step s .resetButton o).state = s := by simp [step, hst]
      rw [hs]; exact ⟨h1, h2⟩
  | FEEDBACK =>
    cases i with
    | resetButton =>
      have hs : (step s .resetButton o).state = initSession := by simp [step, hst]
      rw [hs]; exact sessionInv_init
    | noInput =>
      have hs : (step s .noInput o).state = s := by simp [step, hst]
      rw [hs]; exact ⟨h1, h2⟩
    | upload f =>
      have hs : (step s (.upload f) o).state = s := by simp [step, hst]
      rw [hs]; exact ⟨h1, h2⟩
    | chatInput t =>
      have hs : (step s (.chatInput t) o).state = s := by simp [step, hst]
      rw [hs]; exact ⟨h1, h2⟩
    | endButton =>
      have hs : (step s .endButton o).state = s := by simp [step, hst]
      rw [hs]; exact ⟨h1, h2⟩

theorem runTrace_preserves_sessionInv (tr : List (Interaction × Oracle)) (s : Session)
    (hinv : sessionInv s) : sessionInv (runTrace s tr) := by
  induction tr generalizing s with
  | nil => exact hinv
  | cons e rest ih => exact ih _ (step_preserves_sessionInv s e.1 e.2 hinv)

/-- The single run on which the claim fails: a good upload whose
`start_chat` succeeds and whose seed send fails. -/
def failSeedTrace : List (Interaction × Oracle) := [(.upload pdfFixture, failSendOracle)]

/-- A single fully successful upload run. -/
def happyUploadTrace : List (Interaction × Oracle) := [(.upload pdfFixture, okOracle)]

/-- C1 counterexample: when the seed send fails after `start_chat` succeeded,
the session is still in phase `START` (`AWAITING_RESUME`) yet holds a chat
handle — the exact situation the claim asserts still satisfies the
handle-iff-phase invariant. -/
theorem c1_counterexample :
    ((runTrace initSession failSeedTrace).interview_state = .START
      ∧ (runTrace initSession failSeedTrace).chat_session ≠ none)
    ∧ ¬ ((runTrace initSession failSeedTrace).chat_session ≠ none ↔
        ((runTrace initSession failSeedTrace).interview_state = .INTERVIEW
          ∨ (runTrace initSession failSeedTrace).interview_state = .FEEDBACK)) := by
  decide

/-- C1 (amended): at every reachable state the transcript is empty exactly
when the phase is `START`, and whenever the phase is `INTERVIEW` or
`FEEDBACK` the chat handle exists; the converse of the handle invariant does
not hold, because a handle can survive in phase `START` when the seed send
fails after a successful `start_chat`. -/
theorem c1_session_invariants (tr : List (Interaction × Oracle)) :
    ((runTrace initSession tr).messages = [] ↔
        (runTrace initSession tr).interview_state = .START)
    ∧ (((runTrace initSession tr).interview_state = .INTERVIEW
        ∨ (runTrace initSession tr).interview_state = .FEEDBACK) →
       (runTrace initSession tr).chat_session ≠ none) :=
  runTrace_preserves_sessionInv tr initSession sessionInv_init

/-- Witness for C1 on the successful upload run, discharging the
phase-side hypothesis. -/
theorem c1_session_invariants_witness :
    (runTrace initSession happyUploadTrace).chat_session ≠ none :=
  (c1_session_invariants happyUploadTrace).2 (Or.inl (by decide))

/-! ### The send-after-start discipline behind C6 -/

/-- Flag invariant tying the session state to the call log: outside phase
`START` a successful `start` has already been observed. -/
def startedInv (s : Session) (st : Bool) : Prop :=
  s.interview_state ≠ .START → st = true

theorem sendsAfterStart_append (l1 l2 : List AdapterCall) (st : Bool) :
    sendsAfterStart (l1 ++ l2) st
      = (sendsAfterStart l1 st && sendsAfterStart l2 (startedAfter l1 st)) := by
  induction l1 generalizing st with
  | nil => simp [sendsAfterStart, startedAfter]
  | cons c rest ih =>
    cases c with
    | start ok =>
      cases ok <;> simp [sendsAfterStart, startedAfter, ih]
    | send ok =>
      simp [sendsAfterStart, startedAfter, ih, Bool.and_assoc]

theorem step_calls_sendsAfterStart (s : Session) (i : Interaction) (o : Oracle) (st : Bool)
    (h : startedInv s st) :
    sendsAfterStart (step s i o).calls st = true
    ∧ startedInv (step s i o).state (startedAfter (step s i o).calls st) := by
  cases hst : s.interview_state with
  | START =>
    cases i with
    | upload f =>
      cases hx : extract_text_from_file f with
      | success u =>
        cases ho : o.startResult with
        | error e =>
          constructor
          · simp [step, hst, hx, ho, sendsAfterStart]
          · intro hc
            have : (step s (.upload f) o).state = s := by simp [step, hst, hx, ho]
            rw [this, hst] at hc
            exact absurd rfl hc
        | ok hdl =>
          cases hsend : o.sendResult with
          | error e =>
            constructor
            · simp [step, hst, hx, ho, hsend, sendsAfterStart]
            · intro hc
              simp [step, hst, hx, ho, hsend, startedAfter]
          | ok r =>
            constructor
            · simp [step, hst, hx, ho, hsend, sendsAfterStart]
            · intro hc
              simp [step, hst, hx, ho, hsend, startedAfter]
      | unsupportedFormat ext =>
        constructor
        · simp [step, hst, hx, sendsAfterStart]
        · intro hc
          have : (step s (.upload f) o).state = s := by simp [step, hst, hx]
          rw [this, hst] at hc
          have hcalls : (step s (.upload f) o).calls = [] := by simp [step, hst, hx]
          exact absurd rfl hc
      | emptyExtraction =>
        constructor
        · simp [step, hst, hx, sendsAfterStart]
        · intro hc
          have : (step s (.upload f) o).state = s := by simp [step, hst, hx]
          rw [this, hst] at hc
          exact absurd rfl hc
      | extractionError e =>
        constructor
        · simp [step, hst, hx, sendsAfterStart]
        · intro hc
          have : (step s (.upload f) o).state = s := by simp [step, hst, hx]
          rw [this, hst] at hc
          exact absurd rfl hc
    | noInput =>
      constructor
      · simp [step, hst, sendsAfterStart]
      · intro hc
        have : (step s .noInput o).state = s := by simp [step, hst]
        rw [this, hst] at hc
        exact absurd rfl hc
    | chatInput t =>
      constructor
      · simp [step, hst, sendsAfterStart]
      · intro hc
        have : (step s (.chatInput t) o).state = s := by simp [step, hst]
        rw [this, hst] at hc
        exact absurd rfl hc
    | endButton =>
      constructor
      · simp [step, hst, sendsAfterStart]
      · intro hc
        have : (step s .endButton o).state = s := by simp [step, hst]
        rw [this, hst] at hc
        exact absurd rfl hc
    | resetButton =>
      constructor
      · simp [step, hst, sendsAfterStart]
      · intro hc
        have : (step s .resetButton o).state = s := by simp [step, hst]
        rw [this, hst] at hc
        exact absurd rfl hc
  | INTERVIEW =>
    have hstart : st = true := h (by rw [hst]; intro hc; cases hc)
    subst hstart
    cases i with
    | chatInput t =>
      cases hsend : o.sendResult with
      | error e =>
        constructor
        · simp [step, hst, hsend, sendsAfterStart]
        · intro _
          simp [step, hst, hsend, startedAfter]
      | ok r =>
        constructor
        · simp [step, hst, hsend, sendsAfterStart]
        · intro _
          simp [step, hst, hsend, startedAfter]
    | endButton =>
      constructor
      · simp [step, hst, sendsAfterStart]
      · intro _
        simp [step, hst, startedAfter]
    | noInput =>
      constructor
      · simp [step, hst, sendsAfterStart]
      · intro _
        simp [step, hst, startedAfter]
    | upload f =>
      constructor
      · simp [step, hst, sendsAfterStart]
      · intro _
        simp [step, hst, startedAfter]
    | resetButton =>
      constructor
      · simp [step, hst, sendsAfterStart]
      · intro _
        simp [step, hst, startedAfter]
  | FEEDBACK =>
    have hstart : st = true := h (by rw [hst]; intro hc; cases hc)
    subst hstart
    have hcalls : (step s i o).calls = [.send true] ∨ (step s i o).calls = [.send false] := by
      cases i <;> cases hsend : o.sendResult <;> simp [step, hst, hsend]
    cases i with
    | resetButton =>
      constructor
      · rcases hcalls with hc | hc <;> rw [hc] <;> rfl
      · intro hc
        have : (step s .resetButton o).state = initSession := by
          simp [step, hst]
        rw [this] at hc
        exact absurd rfl hc
    | noInput =>
      constructor
      · rcases hcalls with hc | hc <;> rw [hc] <;> rfl
      · intro _
        rcases hcalls with hc | hc <;> rw [hc] <;> rfl
    | upload f =>
      constructor
      · rcases hcalls with hc | hc <;> rw [hc] <;> rfl
      · intro _
        rcases hcalls with hc | hc <;> rw [hc] <;> rfl
    | chatInput t =>
      constructor
      · rcases hcalls with hc | hc <;> rw [hc] <;> rfl
      · intro _
        rcases hcalls with hc | hc <;> rw [hc] <;> rfl
    | endButton =>
      constructor
      · rcases hcalls with hc | hc <;> rw [hc] <;> rfl
      · intro _
        rcases hcalls with hc | hc <;> rw [hc] <;> rfl

theorem runLog_sendsAfterStart (tr : List (Interaction × Oracle)) (s : Session)
    (st : Bool) (h : startedInv s st) :
    sendsAfterStart (runLog s tr) st = true := by
  induction tr generalizing s st with
  | nil => rfl
  | cons e rest ih =>
    show sendsAfterStart ((step s e.1 e.2).calls ++ runLog (step s e.1 e.2).state rest) st
        = true
    rw [sendsAfterStart_append]
    have hstep := step_calls_sendsAfterStart s e.1 e.2 st h
    rw [hstep.1, Bool.true_and]
    exact ih _ _ hstep.2

/-- C6: in every execution started from the initial session, the adapter-call
log never contains a `send` that is not preceded by a successful `start`. -/
theorem c6_no_send_before_start (tr : List (Interaction × Oracle)) :
    sendsAfterStart (runLog initSession tr) false = true :=
  runLog_sendsAfterStart tr initSession false (fun hc => absurd rfl hc)
